import Mathlib

/-!
Verification of the prompt-session core of a single-page chat-completion
client (`src/App.tsx`). The pure helpers (`extractAssistantText`,
`unescapeNewlinesAndTabs`, `requestPayload`, `outputContentUnescaped`) are
embedded directly; the asynchronous `handleSend` handler is embedded as a
pure transition over the session's state, parameterised by the outcome of
the single HTTP round trip (response with status/body/parse result, abort
by the timeout signal, or a generic failure).
-/

set_option autoImplicit false

/-- Parsed JSON values, as produced by `JSON.parse` in the browser.
Numeric precision is irrelevant to every function modelled here (only
string-typed leaves are ever extracted), so numbers carry an `Int`. -/
inductive Json where
  | null
  | bool (b : Bool)
  | num (n : Int)
  | str (s : String)
  | arr (elems : List Json)
  | obj (fields : List (String × Json))

/-- JavaScript property access `v?.key`: a named field of an object,
`undefined` (here `none`) on every other value. -/
def getField (key : String) : Json → Option Json
  | Json.obj fields => fields.lookup key
  | _ => none

/-- JavaScript element access `v?.[0]`: first element of an array, the
field named "0" of a plain object, the one-character string for a
non-empty string, `undefined` (here `none`) otherwise. -/
def getIndex0 : Json → Option Json
  | Json.arr elems => elems.head?
  | Json.obj fields => fields.lookup "0"
  | Json.str s => (s.data.head?).map (fun c => Json.str (String.mk [c]))
  | _ => none

/-- The guard `typeof x === 'string' && x.length > 0` applied to the
result of an optional-chained probe. -/
def nonEmptyString : Option Json → Option String
  | some (Json.str s) => if s.length > 0 then some s else none
  | _ => none

/-- Probe 1 of `extractAssistantText`: `data?.choices?.[0]?.message?.content`. -/
def probeOpenAI (data : Json) : Option String :=
  nonEmptyString ((((getField "choices" data).bind getIndex0).bind
    (getField "message")).bind (getField "content"))

/-- Probe 2 of `extractAssistantText`: `data?.output?.content`. -/
def probeOutput (data : Json) : Option String :=
  nonEmptyString ((getField "output" data).bind (getField "content"))

/-- Probe 3 of `extractAssistantText`: `data?.data?.choices?.[0]?.message?.content`. -/
def probeNested (data : Json) : Option String :=
  nonEmptyString (((((getField "data" data).bind (getField "choices")).bind
    getIndex0).bind (getField "message")).bind (getField "content"))

/-- `extractAssistantText` from `src/App.tsx`: three sequential probes,
each returning early on a non-empty string, falling through otherwise;
the final fallback returns the empty string. -/
def extractAssistantText (data : Json) : String :=
  match probeOpenAI data with
  | some s => s
  | none =>
    match probeOutput data with
    | some s => s
    | none =>
      match probeNested data with
      | some s => s
      | none => ""

/-- First successful probe of an ordered list, the spec's notion of a
fixed-priority ordered search. -/
def firstSome : List (Option String) → Option String
  | [] => none
  | some s :: _ => some s
  | none :: rest => firstSome rest

/-- The spec's description of the extractor: the first non-empty string
found by the three probes in their fixed order, empty string if none. -/
def specOrderedSearch (data : Json) : String :=
  (firstSome [probeOpenAI data, probeOutput data, probeNested data]).getD ""

/-- A response carrying both `choices[0].message.content = "A"` and
`output.content = "B"`. -/
def exampleBothShapes : Json :=
  Json.obj
    [ ("choices", Json.arr [Json.obj [("message", Json.obj [("content", Json.str "A")])]]),
      ("output", Json.obj [("content", Json.str "B")]) ]

/-- A response whose only recognised shape is `choices[0].message.content`. -/
def exampleChoicesOnly : Json :=
  Json.obj
    [ ("choices", Json.arr [Json.obj [("message", Json.obj [("content", Json.str "A")])]]) ]

/-- First pass of `unescapeNewlinesAndTabs`: `.replace(/\\r\\n/g, '\n')`,
a leftmost non-overlapping scan replacing the four-character literal
sequence backslash-r-backslash-n by one real newline. -/
def replaceRN : List Char → List Char
  | a :: b :: c :: d :: rest =>
    if a = '\\' ∧ b = 'r' ∧ c = '\\' ∧ d = 'n' then '\n' :: replaceRN rest
    else a :: replaceRN (b :: c :: d :: rest)
  | s => s

/-- Second pass of `unescapeNewlinesAndTabs`: `.replace(/\\n/g, '\n')`,
replacing each literal backslash-n pair by one real newline. -/
def replaceN : List Char → List Char
  | c :: d :: rest =>
    if c = '\\' ∧ d = 'n' then '\n' :: replaceN rest
    else c :: replaceN (d :: rest)
  | s => s

/-- Third pass of `unescapeNewlinesAndTabs`: `.replace(/\\t/g, '    ')`,
replacing each literal backslash-t pair by four spaces. -/
def replaceT : List Char → List Char
  | c :: d :: rest =>
    if c = '\\' ∧ d = 't' then ' ' :: ' ' :: ' ' :: ' ' :: replaceT rest
    else c :: replaceT (d :: rest)
  | s => s

/-- `unescapeNewlinesAndTabs` from `src/App.tsx`. `none` stands for the
`undefined | null` inputs; the falsy guard `if (!value) return ''` also
catches the empty string. -/
def unescapeNewlinesAndTabs (value : Option String) : String :=
  match value with
  | none => ""
  | some v => if v = "" then "" else String.mk (replaceT (replaceN (replaceRN v.data)))

/-- Whether a list of characters contains the adjacent pair `a`, `b`. -/
def hasPair (a b : Char) : List Char → Bool
  | c :: d :: rest => (c = a ∧ d = b : Bool) || hasPair a b (d :: rest)
  | _ => false

/-- A role-tagged chat message, as carried in the request body. -/
structure ChatMessage where
  role : String
  content : String

/-- The request body shape `OpenAIChatRequest` (the optional
`temperature` and `max_tokens` fields are never set by the app). -/
structure OpenAIChatRequest where
  model : String
  messages : List ChatMessage

/-- The fixed model identifier `DEFAULT_MODEL` from `src/App.tsx`. -/
def DEFAULT_MODEL : String := "deepseek-chat"

/-- The fixed timeout `FETCH_TIMEOUT_MS` from `src/App.tsx`. -/
def FETCH_TIMEOUT_MS : Nat := 120000

/-- `requestPayload` from `src/App.tsx`: the memoised request body built
from the current prompt. -/
def requestPayload (prompt : String) : OpenAIChatRequest :=
  { model := DEFAULT_MODEL,
    messages :=
      [ { role := "system", content := "You are a helpful assistant." },
        { role := "user", content := prompt } ] }

/-- The session's mutable state: the `loading`, `error`, `assistantText`
and `rawResponse` pieces of component state (`prompt` and the view toggle
are modelled separately since `handleSend` never writes them). -/
structure SessionState where
  loading : Bool
  error : Option String
  assistantText : String
  rawResponse : Option Json

/-- Outcome of the single `fetch` round trip: an HTTP response with its
status, raw body text and the result of `response.json()` (`Except.error`
carries the `SyntaxError` message when the body is not valid JSON); an
abort fired by the timeout's cancellation signal; or any other rejection
(network failure etc.) with its message. -/
inductive FetchOutcome where
  | response (status : Nat) (bodyText : String) (parsed : Except String Json)
  | abort
  | failure (msg : String)

/-- `Response.ok`: status in the inclusive range 200–299. -/
def responseOk (status : Nat) : Bool := 200 ≤ status && status ≤ 299

/-- The state after the opening writes of `handleSend`: `setLoading(true)`,
`setError(null)`, `setAssistantText('')`, `setRawResponse(null)`. -/
def clearedState : SessionState :=
  { loading := true, error := none, assistantText := "", rawResponse := none }

/-- `handleSend` from `src/App.tsx` as a pure transition: it first clears
all session state, then commits the round trip's outcome — non-ok status
throws `HTTP <status>: <body>` into the generic catch branch, an abort is
reported as the timeout message, a JSON parse failure surfaces its own
message — and finally resets `loading`. The resulting state does not
depend on the state before the send, since every field is overwritten. -/
def handleSend (outcome : FetchOutcome) : SessionState :=
  let settled :=
    match outcome with
    | FetchOutcome.response status bodyText parsed =>
      if responseOk status then
        match parsed with
        | Except.ok data =>
          { clearedState with
              rawResponse := some data, assistantText := extractAssistantText data }
        | Except.error msg => { clearedState with error := some msg }
      else
        { clearedState with error := some ("HTTP " ++ toString status ++ ": " ++ bodyText) }
    | FetchOutcome.abort =>
      { clearedState with
          error := some ("Request timed out after " ++ toString (FETCH_TIMEOUT_MS / 1000) ++ "s") }
    | FetchOutcome.failure msg => { clearedState with error := some msg }
  { settled with loading := false }

/-- The send button's guard `disabled={loading || !prompt.trim()}`. -/
def sendDisabled (st : SessionState) (prompt : String) : Bool :=
  st.loading || prompt.trim = ""

/-- One click of the send button: disabled clicks change nothing and make
no network call; enabled clicks run `handleSend` and make exactly one
call. The second component counts the network calls issued. -/
def clickSend (st : SessionState) (prompt : String) (outcome : FetchOutcome) :
    SessionState × Nat :=
  if sendDisabled st prompt then (st, 0) else (handleSend outcome, 1)

/-- `outputContentUnescaped` from `src/App.tsx`: the content view reads
only `rawResponse?.output?.content`; a non-string there is either falsy
(yielding the empty string) or makes `.replace` throw into the memo's
catch, which also yields the empty string. -/
def outputContentUnescaped (rawResponse : Option Json) : String :=
  match (rawResponse.bind (getField "output")).bind (getField "content") with
  | some (Json.str s) => unescapeNewlinesAndTabs (some s)
  | _ => ""

/-- The content branch of the response toggle at the bottom of the right
panel: `outputContentUnescaped || '—'`. -/
def contentViewRendering (rawResponse : Option Json) : String :=
  if outputContentUnescaped rawResponse = "" then "—" else outputContentUnescaped rawResponse

/-- The `output.content` string of a raw response, when present: the
value actually fed to the normalizer by the content view. -/
def jsOutputContent (rawResponse : Option Json) : Option String :=
  match (rawResponse.bind (getField "output")).bind (getField "content") with
  | some (Json.str s) => some s
  | _ => none

theorem hasPair_cons_cons (a b c d : Char) (rest : List Char) :
    hasPair a b (c :: d :: rest) = ((c = a ∧ d = b : Bool) || hasPair a b (d :: rest)) := rfl

theorem replaceRN_of_no_pair :
    ∀ s : List Char, hasPair '\\' 'n' s = false → replaceRN s = s := by
  intro s
  induction s with
  | nil => intro _; rfl
  | cons a tail ih =>
    intro h
    rcases tail with _ | ⟨b, _ | ⟨c, _ | ⟨d, rest⟩⟩⟩
    · rfl
    · rfl
    · rfl
    · rw [hasPair_cons_cons, Bool.or_eq_false_iff] at h
      rw [replaceRN]
      by_cases hm : a = '\\' ∧ b = 'r' ∧ c = '\\' ∧ d = 'n'
      · exfalso
        obtain ⟨_, _, hc, hd⟩ := hm
        subst hc; subst hd
        have htail := h.2
        rw [hasPair_cons_cons, Bool.or_eq_false_iff] at htail
        have hcd := htail.2
        rw [hasPair_cons_cons, Bool.or_eq_false_iff] at hcd
        exact absurd hcd.1 (by decide)
      · rw [if_neg hm, ih h.2]

theorem replaceN_of_no_pair :
    ∀ s : List Char, hasPair '\\' 'n' s = false → replaceN s = s := by
  intro s
  induction s with
  | nil => intro _; rfl
  | cons c tail ih =>
    intro h
    rcases tail with _ | ⟨d, rest⟩
    · rfl
    · rw [hasPair_cons_cons, Bool.or_eq_false_iff] at h
      rw [replaceN, if_neg (of_decide_eq_false h.1), ih h.2]

theorem replaceT_of_no_pair :
    ∀ s : List Char, hasPair '\\' 't' s = false → replaceT s = s := by
  intro s
  induction s with
  | nil => intro _; rfl
  | cons c tail ih =>
    intro h
    rcases tail with _ | ⟨d, rest⟩
    · rfl
    · rw [hasPair_cons_cons, Bool.or_eq_false_iff] at h
      rw [replaceT, if_neg (of_decide_eq_false h.1), ih h.2]

/-- C1: for every parsed JSON value, `extractAssistantText` returns the
first non-empty string found by probing `choices[0].message.content`,
then `output.content`, then `data.choices[0].message.content`, in that
fixed order, and the empty string when no probe yields a non-empty
string; in particular an input with both `choices[0].message.content = "A"`
and `output.content = "B"` yields `"A"`. -/
theorem C1_extract_fixed_priority :
    (∀ data : Json, extractAssistantText data = specOrderedSearch data) ∧
    extractAssistantText exampleBothShapes = "A" := by
  refine ⟨fun data => ?_, rfl⟩
  unfold extractAssistantText specOrderedSearch
  cases probeOpenAI data <;> cases probeOutput data <;> cases probeNested data <;>
    simp [firstSome]

/-- C2: `extractAssistantText` is total — it is a function into `String`,
so every input yields a string — and degrades to the empty string when no
probe matches; in particular it tolerates the empty object, `null` at any
intermediate field, non-object values, wrong-typed fields, and arrays
shorter than the probed index. -/
theorem C2_extract_total_and_tolerant :
    (∀ data : Json,
      probeOpenAI data = none → probeOutput data = none → probeNested data = none →
      extractAssistantText data = "") ∧
    extractAssistantText (Json.obj []) = "" ∧
    extractAssistantText Json.null = "" ∧
    extractAssistantText (Json.num 5) = "" ∧
    extractAssistantText (Json.obj [("choices", Json.null)]) = "" ∧
    extractAssistantText (Json.obj [("choices", Json.num 7)]) = "" ∧
    extractAssistantText (Json.obj [("choices", Json.arr [])]) = "" ∧
    extractAssistantText (Json.obj [("choices", Json.arr [Json.null])]) = "" ∧
    extractAssistantText (Json.obj [("choices", Json.arr [Json.obj [("message", Json.num 3)]])]) = "" ∧
    extractAssistantText (Json.obj [("choices", Json.arr [Json.obj [("message", Json.obj [("content", Json.num 1)])]])]) = "" ∧
    extractAssistantText (Json.obj [("choices", Json.arr [Json.obj [("message", Json.obj [("content", Json.str "")])]])]) = "" ∧
    extractAssistantText (Json.obj [("output", Json.str "x")]) = "" ∧
    extractAssistantText (Json.obj [("output", Json.obj [("content", Json.null)])]) = "" ∧
    extractAssistantText (Json.obj [("data", Json.obj [("choices", Json.arr [])])]) = "" := by
  refine ⟨fun data h1 h2 h3 => ?_, rfl, rfl, rfl, rfl, rfl, rfl, rfl, rfl, rfl, rfl, rfl, rfl, rfl⟩
  unfold extractAssistantText
  rw [h1, h2, h3]

/-- Witness for C2 at the empty object: every probe misses and the
extractor returns the empty string. -/
theorem C2_extract_total_and_tolerant_witness :
    extractAssistantText (Json.obj []) = "" :=
  C2_extract_total_and_tolerant.1 (Json.obj []) rfl rfl rfl

/-- C3: for every prompt string, the request payload has model
`deepseek-chat` and exactly two messages in order — the fixed system
instruction, then a user message whose content is the prompt itself,
untrimmed and untransformed. -/
theorem C3_request_builder (prompt : String) :
    (requestPayload prompt).model = "deepseek-chat" ∧
    (requestPayload prompt).messages =
      [ { role := "system", content := "You are a helpful assistant." },
        { role := "user", content := prompt } ] ∧
    (requestPayload prompt).messages.length = 2 ∧
    (requestPayload prompt).messages.get? 1 =
      some { role := "user", content := prompt } :=
  ⟨rfl, rfl, rfl, rfl⟩

/-- C4: the normalizer maps `null`/`undefined` (both `none`) and the empty
string to the empty string; it turns literal backslash-r-backslash-n and
backslash-n into one real newline and literal backslash-t into four
spaces; and it is the identity — hence idempotent — on every string free
of the literal backslash-n and backslash-t pairs. -/
theorem C4_unescape_contract :
    unescapeNewlinesAndTabs none = "" ∧
    unescapeNewlinesAndTabs (some "") = "" ∧
    unescapeNewlinesAndTabs (some "a\\nb") = "a\nb" ∧
    unescapeNewlinesAndTabs (some "a\\r\\nb") = "a\nb" ∧
    unescapeNewlinesAndTabs (some "a\\tb") = "a    b" ∧
    (∀ s : String, hasPair '\\' 'n' s.data = false → hasPair '\\' 't' s.data = false →
      unescapeNewlinesAndTabs (some s) = s ∧
      unescapeNewlinesAndTabs (some (unescapeNewlinesAndTabs (some s))) =
        unescapeNewlinesAndTabs (some s)) := by
  refine ⟨rfl, rfl, rfl, rfl, rfl, fun s hn ht => ?_⟩
  have hid : unescapeNewlinesAndTabs (some s) = s := by
    by_cases hs : s = ""
    · subst hs; rfl
    · show (if s = "" then "" else String.mk (replaceT (replaceN (replaceRN s.data)))) = s
      rw [if_neg hs, replaceRN_of_no_pair s.data hn, replaceN_of_no_pair s.data hn,
        replaceT_of_no_pair s.data ht]
  exact ⟨hid, by rw [hid]; exact hid⟩

/-- Witness for C4: the escape-free string "ab" is left unchanged. -/
theorem C4_unescape_contract_witness :
    hasPair '\\' 'n' "ab".data = false ∧ hasPair '\\' 't' "ab".data = false ∧
    unescapeNewlinesAndTabs (some "ab") = "ab" :=
  ⟨by decide, by decide,
    (C4_unescape_contract.2.2.2.2.2 "ab" (by decide) (by decide)).1⟩

/-- C5 counterexample: for a stored raw response of the OpenAI shape
`choices[0].message.content = "A"`, the content view renders the empty
string, while the normalized extracted assistant text is `"A"` — the
toggle does not render `unescapeNewlinesAndTabs (extractAssistantText _)`. -/
theorem C5_counterexample_content_view :
    outputContentUnescaped (some exampleChoicesOnly) ≠
      unescapeNewlinesAndTabs (some (extractAssistantText exampleChoicesOnly)) := by
  decide

/-- C5 (amended): the content view of the response toggle renders the
escape-normalized `output.content` string of the raw response — not the
extracted assistant text — yielding the empty string when that field is
absent or not a string, and a placeholder dash is shown when the rendered
string is empty. -/
theorem C5_content_view_renders_output_content :
    (∀ rawResponse : Option Json,
      outputContentUnescaped rawResponse =
        unescapeNewlinesAndTabs (jsOutputContent rawResponse)) ∧
    (∀ rawResponse : Option Json,
      outputContentUnescaped rawResponse = "" → contentViewRendering rawResponse = "—") := by
  constructor
  · intro rawResponse
    unfold outputContentUnescaped jsOutputContent
    cases h : (rawResponse.bind (getField "output")).bind (getField "content") with
    | none => rfl
    | some j => cases j <;> rfl
  · intro rawResponse h
    unfold contentViewRendering
    rw [if_pos h]

/-- Witness for C5 (amended): with no stored response the content view
shows the placeholder dash. -/
theorem C5_content_view_renders_output_content_witness :
    contentViewRendering none = "—" :=
  C5_content_view_renders_output_content.2 none rfl

/-- C6: the timeout is the fixed 120,000 ms; when it fires, the abort of
the in-flight call lands the session in the failed state (`loading`
false, error present) with the message carrying the timeout in seconds,
so the message contains "120". -/
theorem C6_timeout_fails_with_seconds :
    FETCH_TIMEOUT_MS = 120000 ∧
    (handleSend FetchOutcome.abort).loading = false ∧
    (handleSend FetchOutcome.abort).error =
      some ("Request timed out after " ++ toString (FETCH_TIMEOUT_MS / 1000) ++ "s") ∧
    (handleSend FetchOutcome.abort).error = some "Request timed out after 120s" ∧
    "120".data <:+: "Request timed out after 120s".data := by
  exact ⟨rfl, rfl, rfl, rfl, ⟨"Request timed out after ".data, "s".data, by decide⟩⟩

/-- C7: a non-success HTTP status fails the request: the session ends in
the failed state with the message `HTTP <status>: <body>`, which contains
both the numeric status and the raw body text. -/
theorem C7_http_error_status_and_body (status : Nat) (bodyText : String)
    (parsed : Except String Json) (h : responseOk status = false) :
    (handleSend (FetchOutcome.response status bodyText parsed)).loading = false ∧
    (handleSend (FetchOutcome.response status bodyText parsed)).error =
      some ("HTTP " ++ toString status ++ ": " ++ bodyText) ∧
    (toString status).data <:+: ("HTTP " ++ toString status ++ ": " ++ bodyText).data ∧
    bodyText.data <:+: ("HTTP " ++ toString status ++ ": " ++ bodyText).data := by
  refine ⟨?_, ?_, ?_, ?_⟩
  · simp [handleSend, h]
  · simp [handleSend, h]
  · exact ⟨"HTTP ".data, (": " ++ bodyText).data,
      by simp [String.data_append, List.append_assoc]⟩
  · exact ⟨("HTTP " ++ toString status ++ ": ").data, [],
      by simp [String.data_append, List.append_assoc]⟩

/-- Witness for C7 at HTTP 500 with body "server error": the error
message is `HTTP 500: server error`, containing "500" and "server error". -/
theorem C7_http_error_status_and_body_witness :
    responseOk 500 = false ∧
    (handleSend (FetchOutcome.response 500 "server error" (Except.ok Json.null))).error =
      some "HTTP 500: server error" ∧
    "500".data <:+: "HTTP 500: server error".data ∧
    "server error".data <:+: "HTTP 500: server error".data :=
  ⟨by decide,
    (C7_http_error_status_and_body 500 "server error" (Except.ok Json.null) (by decide)).2.1,
    by decide, by decide⟩

/-- C8 counterexample: when the body is not valid JSON (modelled by
`response.json()` rejecting with a `SyntaxError` message), an error IS
surfaced and the raw response is NOT stored — contradicting the claim
that such bodies surface as empty extracted text with the raw body still
displayable. -/
theorem C8_counterexample_invalid_json :
    (handleSend (FetchOutcome.response 200 "not json"
      (Except.error "Unexpected token o in JSON"))).rawResponse = none ∧
    (handleSend (FetchOutcome.response 200 "not json"
      (Except.error "Unexpected token o in JSON"))).error =
      some "Unexpected token o in JSON" := by
  exact ⟨rfl, rfl⟩

/-- C8 (amended): only a body that is valid JSON of an unrecognized shape
raises no distinct error — the extracted text is empty and the raw value
stays stored and displayable; a body that is not valid JSON instead
surfaces its parse failure as a generic error, with no raw response
stored. -/
theorem C8_malformed_response_handling (status : Nat) (bodyText : String)
    (data : Json) (msg : String) (hok : responseOk status = true)
    (hshape : extractAssistantText data = "") :
    ((handleSend (FetchOutcome.response status bodyText (Except.ok data))).error = none ∧
     (handleSend (FetchOutcome.response status bodyText (Except.ok data))).rawResponse =
       some data ∧
     (handleSend (FetchOutcome.response status bodyText (Except.ok data))).assistantText = "") ∧
    ((handleSend (FetchOutcome.response status bodyText (Except.error msg))).error = some msg ∧
     (handleSend (FetchOutcome.response status bodyText (Except.error msg))).rawResponse =
       none) := by
  refine ⟨⟨?_, ?_, ?_⟩, ?_, ?_⟩ <;> simp [handleSend, clearedState, hok, hshape]

/-- Witness for C8 (amended) at HTTP 200: the empty object is stored with
empty extracted text and no error; an invalid body surfaces its message. -/
theorem C8_malformed_response_handling_witness :
    (handleSend (FetchOutcome.response 200 "x" (Except.ok (Json.obj [])))).error = none ∧
    (handleSend (FetchOutcome.response 200 "x" (Except.ok (Json.obj [])))).rawResponse =
      some (Json.obj []) ∧
    (handleSend (FetchOutcome.response 200 "x" (Except.error "bad"))).error = some "bad" :=
  ⟨(C8_malformed_response_handling 200 "x" (Json.obj []) "bad" (by decide) rfl).1.1,
   (C8_malformed_response_handling 200 "x" (Json.obj []) "bad" (by decide) rfl).1.2.1,
   (C8_malformed_response_handling 200 "x" (Json.obj []) "bad" (by decide) rfl).2.1⟩

/-- C9: at most one request is in flight — while a request is pending
(`loading` true) the send button is disabled, so a click is a no-op: the
state is unchanged and zero network calls are made. -/
theorem C9_send_noop_while_pending (st : SessionState) (prompt : String)
    (outcome : FetchOutcome) (h : st.loading = true) :
    clickSend st prompt outcome = (st, 0) := by
  simp [clickSend, sendDisabled, h]

/-- Witness for C9: clicking send in a pending session changes nothing. -/
theorem C9_send_noop_while_pending_witness :
    clickSend ⟨true, none, "", none⟩ "hello" FetchOutcome.abort =
      (⟨true, none, "", none⟩, 0) :=
  C9_send_noop_while_pending ⟨true, none, "", none⟩ "hello" FetchOutcome.abort rfl

/-- C10: the backslash-n replacement ignores preceding backslashes: on
the five-character input a, backslash, backslash, n, b the pair is still
replaced, yielding a, backslash, newline, b. -/
theorem C10_unescape_ignores_double_backslash :
    unescapeNewlinesAndTabs (some "a\\\\nb") = "a\\\nb" := rfl
